import Mathlib

/-!
Shallow embedding of the assignment-portal backend (src/index.js):
token issuance and verification (jsonwebtoken usage in POST /jwt and in
the verifyToken middleware), the per-route email check, and the
document-store operations each route handler performs (MongoDB driver
calls: insertOne, find with skip/limit, findOne by id, updateOne with
and without upsert, deleteOne).  Times are Unix seconds as Nat; the
token signature is modelled by recording the signing secret inside the
token, so that verification succeeds exactly when the verifying secret
equals the signing one.
-/

/-- Decoded JWT claims: the payload posted to POST /jwt (at minimum an
email) plus the iat/exp fields that jsonwebtoken adds when signing with
expiresIn. -/
structure TokenClaims where
  email : String
  iat : Nat
  exp : Nat
deriving DecidableEq, Repr

/-- A signed token as produced by jwt.sign: carries the payload, the
issued-at and expiry timestamps, and (modelling the HMAC signature) the
secret it was signed with. -/
structure SignedToken where
  email : String
  iat : Nat
  exp : Nat
  signedWith : String
deriving DecidableEq, Repr

/-- Verification errors of jwt.verify as named by the spec taxonomy. -/
inductive AuthError where
  | InvalidSignature
  | Expired
  | Malformed
deriving DecidableEq, Repr

/-- Model of jwt.sign(payload, secret, \x7bexpiresIn: "1h"\x7d) from the
POST /jwt handler: exp is set 3600 seconds after the current time. -/
def jwtSign (email : String) (secret : String) (now : Nat) : SignedToken :=
  { email := email, iat := now, exp := now + 3600, signedWith := secret }

/-- Model of jwt.verify(token, secret): the signature check succeeds iff
the secrets agree, and the token is expired iff the clock has reached
exp (jsonwebtoken rejects when clockTimestamp >= exp). -/
def jwtVerify (tok : SignedToken) (secret : String) (now : Nat) :
    Except AuthError TokenClaims :=
  if tok.signedWith ≠ secret then .error .InvalidSignature
  else if tok.exp ≤ now then .error .Expired
  else .ok { email := tok.email, iat := tok.iat, exp := tok.exp }

/-- Outcome of the verifyToken middleware.  The code sends a 401 and
then calls process.exit(1) on a missing cookie and on any jwt.verify
error; on success it sets req.user to the decoded claims and calls
next(). -/
inductive GuardResult where
  | proceed (user : TokenClaims)
  | reject401AndExitProcess
deriving DecidableEq, Repr

/-- Model of the verifyToken middleware: reads the token cookie, and
either proceeds with the decoded claims or sends 401 and terminates the
whole server process via process.exit(1). -/
def verifyToken (cookieToken : Option SignedToken) (secret : String)
    (now : Nat) : GuardResult :=
  match cookieToken with
  | none => .reject401AndExitProcess
  | some tok =>
    match jwtVerify tok secret now with
    | .error _ => .reject401AndExitProcess
    | .ok decoded => .proceed decoded

/-- Validity of a BSON ObjectId hex string: the ObjectId constructor in
the MongoDB driver accepts exactly 24 hexadecimal characters and throws
a BSONError on anything else.  Within the handlers a valid id is kept as
its hex string. -/
def isValidObjectId (s : String) : Bool :=
  s.length == 24 && s.toList.all (fun c =>
    c.isDigit || ('a' ≤ c && c ≤ 'f') || ('A' ≤ c && c ≤ 'F'))

/-- A query-string value as Express exposes it: absent parameters read
as undefined, present ones as strings. -/
inductive QueryVal where
  | absent
  | str (s : String)
deriving DecidableEq, Repr

/-- An assignment document as stored in the assignments collection:
the store-held _id (ObjectId hex) plus the fields of the data model.
Field values are optional strings; none stands for a field that is
missing (or was written from a JavaScript undefined, which the driver
serializes as null). -/
structure AssignmentDoc where
  oid : String
  title : Option String
  photo : Option String
  marks : Option String
  difficulty : Option String
  due : Option String
  description : Option String
deriving DecidableEq, Repr

/-- A submission document in the submitted collection. -/
structure SubmissionDoc where
  oid : String
  submittedBy : Option String
  status : Option String
  givenMark : Option String
  feedback : Option String
  gradedBy : Option String
deriving DecidableEq, Repr

/-- The request body of PUT /update/:id after destructuring: the six
assignment fields, each possibly undefined. -/
structure UpdateBody where
  title : Option String
  photo : Option String
  marks : Option String
  difficulty : Option String
  due : Option String
  description : Option String
deriving DecidableEq, Repr

/-- The request body of PATCH /mark/:id: the four grading fields the
handler reads from req.body. -/
structure MarkBody where
  givenMark : Option String
  feedback : Option String
  gradedBy : Option String
  status : Option String
deriving DecidableEq, Repr

/-- The responses the modelled routes send, in the order res.send and
res.status(..).send calls execute. -/
inductive Response where
  | forbidden
  | insertAck
  | updateAck
  | deleteAck
  | assignmentFound (a : AssignmentDoc)
  | assignmentNotFound
  | submissionList (l : List SubmissionDoc)
deriving DecidableEq, Repr

/-- Result of running a handler body over a store of type σ: either the
handler ran to completion, emitting its responses in order and leaving
the store in the given state, or a thrown exception (the ObjectId
constructor on a malformed id) escaped it after the listed responses had
already been sent, leaving the store in the given state. -/
inductive HandlerResult (σ : Type) where
  | ok (responses : List Response) (store : σ)
  | thrown (responses : List Response) (store : σ)
deriving DecidableEq, Repr

/-- The email check shared by every protected handler:
if ((await req.user.email) !== req.query.email) a 403 Forbidden is sent,
but execution falls through to the rest of the handler either way. -/
def forbiddenCheck (user : TokenClaims) (queryEmail : QueryVal) :
    List Response :=
  if queryEmail = .str user.email then [] else [.forbidden]

/-- Model of collection.insertOne: appends the document (with its
store-held _id) to the collection. -/
def insertOne {α : Type} (store : List α) (doc : α) : List α :=
  store ++ [doc]

/-- Model of collection.findOne(\x7b_id: id\x7d): the first document whose
_id equals the given id, if any. -/
def findOneById (store : List AssignmentDoc) (id : String) :
    Option AssignmentDoc :=
  store.find? (fun d => d.oid == id)

/-- Model of collection.deleteOne(\x7b_id: id\x7d): removes the first
document with the given id, if any. -/
def deleteOneById : List AssignmentDoc → String → List AssignmentDoc
  | [], _ => []
  | d :: ds, id => if d.oid = id then ds else d :: deleteOneById ds id

/-- The $set document of PUT /update/:id applied to an existing
assignment: the six listed fields take the body's values; the _id is
untouched. -/
def applySet (b : UpdateBody) (d : AssignmentDoc) : AssignmentDoc :=
  { d with title := b.title, photo := b.photo, marks := b.marks,
           difficulty := b.difficulty, due := b.due,
           description := b.description }

/-- The document MongoDB inserts when updateOne(\x7b_id: id\x7d, \x7b$set: ...\x7d,
\x7bupsert: true\x7d) matches nothing: the filter's _id plus the $set
fields. -/
def upsertDoc (id : String) (b : UpdateBody) : AssignmentDoc :=
  { oid := id, title := b.title, photo := b.photo, marks := b.marks,
    difficulty := b.difficulty, due := b.due,
    description := b.description }

/-- Model of updateOne(\x7b_id: id\x7d, \x7b$set: ...\x7d, \x7bupsert: true\x7d): applies
$set to the first document with the given id, or inserts the upsert
document when none matches. -/
def updateOneUpsert : List AssignmentDoc → String → UpdateBody →
    List AssignmentDoc
  | [], id, b => [upsertDoc id b]
  | d :: ds, id, b =>
    if d.oid = id then applySet b d :: ds
    else d :: updateOneUpsert ds id b

/-- The $set document of PATCH /mark/:id applied to a submission. -/
def markSet (m : MarkBody) (d : SubmissionDoc) : SubmissionDoc :=
  { d with givenMark := m.givenMark, feedback := m.feedback,
           gradedBy := m.gradedBy, status := m.status }

/-- Model of updateOne(\x7b_id: id\x7d, \x7b$set: ...\x7d) without upsert in the
mark handler: applies $set to the first document with the given id; no
match leaves the collection unchanged. -/
def updateOneMark : List SubmissionDoc → String → MarkBody →
    List SubmissionDoc
  | [], _, _ => []
  | d :: ds, id, m =>
    if d.oid = id then markSet m d :: ds
    else d :: updateOneMark ds id m

/-- Handler body of POST /create after verifyToken: the email check
(which does not stop the handler), then insertOne(req.body), then
res.send(result). -/
def createHandler (user : TokenClaims) (queryEmail : QueryVal)
    (body : AssignmentDoc) (store : List AssignmentDoc) :
    HandlerResult (List AssignmentDoc) :=
  let rs := forbiddenCheck user queryEmail
  .ok (rs ++ [.insertAck]) (insertOne store body)

/-- Handler body of GET /assignment/:id after verifyToken: the email
check, then new ObjectId(req.params.id) (which throws on a malformed
id), then findOne, then either \x7bsuccess: true, assignment\x7d or
\x7bsuccess: false\x7d. -/
def assignmentByIdHandler (user : TokenClaims) (queryEmail : QueryVal)
    (idStr : String) (store : List AssignmentDoc) :
    HandlerResult (List AssignmentDoc) :=
  let rs := forbiddenCheck user queryEmail
  if isValidObjectId idStr then
    match findOneById store idStr with
    | some a => .ok (rs ++ [.assignmentFound a]) store
    | none => .ok (rs ++ [.assignmentNotFound]) store
  else .thrown rs store

/-- Handler body of PUT /update/:id after verifyToken: the email check,
then updateOne by ObjectId with \x7bupsert: true\x7d and the six-field $set,
then res.send(updatedResult). -/
def updateHandler (user : TokenClaims) (queryEmail : QueryVal)
    (idStr : String) (b : UpdateBody) (store : List AssignmentDoc) :
    HandlerResult (List AssignmentDoc) :=
  let rs := forbiddenCheck user queryEmail
  if isValidObjectId idStr then
    .ok (rs ++ [.updateAck]) (updateOneUpsert store idStr b)
  else .thrown rs store

/-- Handler body of DELETE /delete/:id after verifyToken: the email
check, then new ObjectId(req.params.id), then deleteOne, then
res.send(delRes). -/
def deleteHandler (user : TokenClaims) (queryEmail : QueryVal)
    (idStr : String) (store : List AssignmentDoc) :
    HandlerResult (List AssignmentDoc) :=
  let rs := forbiddenCheck user queryEmail
  if isValidObjectId idStr then
    .ok (rs ++ [.deleteAck]) (deleteOneById store idStr)
  else .thrown rs store

/-- Handler body of POST /createSubmitted after verifyToken: the email
check, then insertOne(req.body) into the submitted collection. -/
def createSubmittedHandler (user : TokenClaims) (queryEmail : QueryVal)
    (body : SubmissionDoc) (store : List SubmissionDoc) :
    HandlerResult (List SubmissionDoc) :=
  let rs := forbiddenCheck user queryEmail
  .ok (rs ++ [.insertAck]) (insertOne store body)

/-- Handler body of PATCH /mark/:id after verifyToken: the email check,
then new ObjectId(req.params.id), then updateOne with the grading $set
(no upsert). -/
def markHandler (user : TokenClaims) (queryEmail : QueryVal)
    (idStr : String) (m : MarkBody) (store : List SubmissionDoc) :
    HandlerResult (List SubmissionDoc) :=
  let rs := forbiddenCheck user queryEmail
  if isValidObjectId idStr then
    .ok (rs ++ [.updateAck]) (updateOneMark store idStr m)
  else .thrown rs store

/-- The submissions GET /myassignments filters for: those whose
submittedBy equals the authenticated user's email (req.user.email),
regardless of any query-string email. -/
def mySubmissions (user : TokenClaims) (store : List SubmissionDoc) :
    List SubmissionDoc :=
  store.filter (fun s => s.submittedBy == some user.email)

/-- Handler body of GET /myassignments after verifyToken: the email
check, then find(\x7bsubmittedBy: req.user.email\x7d).toArray, then
res.send of the resulting list. -/
def myAssignmentsHandler (user : TokenClaims) (queryEmail : QueryVal)
    (store : List SubmissionDoc) : HandlerResult (List SubmissionDoc) :=
  let rs := forbiddenCheck user queryEmail
  .ok (rs ++ [.submissionList (mySubmissions user store)]) store

/-- The Mongo filter GET /assignmentsbydifficulty builds: the empty
filter \x7b\x7d, or \x7bdifficulty: v\x7d where v is the query value (possibly
the JavaScriptundefined of an absent parameter). -/
inductive DifficultyFilter where
  | empty
  | byDifficulty (v : QueryVal)
deriving DecidableEq, Repr

/-- Filter construction in GET /assignmentsbydifficulty: filter starts
as \x7b\x7d and becomes \x7bdifficulty: req.query.difficulty\x7d whenever
req.query.difficulty !== "" — including when the parameter is absent
(undefined !== ""). -/
def buildFilter (q : QueryVal) : DifficultyFilter :=
  if q ≠ .str "" then .byDifficulty q else .empty

/-- Whether an assignment document matches the built filter.  The empty
filter matches everything.  \x7bdifficulty: "v"\x7d matches documents whose
difficulty equals "v".  \x7bdifficulty: undefined\x7d is serialized by the
driver as \x7bdifficulty: null\x7d, which matches only documents without a
set difficulty field. -/
def matchesFilter : DifficultyFilter → AssignmentDoc → Bool
  | .empty, _ => true
  | .byDifficulty (.str v), d => d.difficulty == some v
  | .byDifficulty .absent, d => d.difficulty == none

/-- Model of cursor.limit(size): MongoDB treats limit(0) as no limit
at all, so every remaining document is returned; a positive size caps
the result at size documents. -/
def mongoLimit (size : Nat) (l : List AssignmentDoc) :
    List AssignmentDoc :=
  if size = 0 then l else l.take size

/-- Handler body of GET /assignmentsbydifficulty: builds the filter,
then find(filter).skip(page * size).limit(size).toArray().  page and
size are the parsed query integers. -/
def assignmentsByDifficultyHandler (q : QueryVal) (page size : Nat)
    (store : List AssignmentDoc) : List AssignmentDoc :=
  mongoLimit size
    ((store.filter (matchesFilter (buildFilter q))).drop (page * size))

/-- A well-formed 24-hex-character ObjectId string used in concrete
evaluations. -/
def exId : String := "aaaaaaaaaaaaaaaaaaaaaaaa"

/-- A concrete assignment document used in concrete evaluations. -/
def exAssignment : AssignmentDoc :=
  { oid := exId, title := some "HW1", photo := some "photo.png",
    marks := some "10", difficulty := some "easy",
    due := some "2024-01-01", description := some "intro homework" }

/-- A concrete pending submission used in concrete evaluations. -/
def exSubmission : SubmissionDoc :=
  { oid := exId, submittedBy := some "a@x.com",
    status := some "pending", givenMark := none, feedback := none,
    gradedBy := none }

/-- A concrete update body used in concrete evaluations. -/
def exUpdateBody : UpdateBody :=
  { title := some "HW2", photo := some "p2.png", marks := some "20",
    difficulty := some "hard", due := some "2024-02-02",
    description := some "revised homework" }

/-- A concrete grading body used in concrete evaluations. -/
def exMarkBody : MarkBody :=
  { givenMark := some "8", feedback := some "ok",
    gradedBy := some "b@x.com", status := some "graded" }

/-- C2: the claim says an absent, invalid or expired credential cookie
rejects only that request and never terminates the server process.  The
code instead calls process.exit(1) after sending the 401: evaluated at a
request with no cookie, at one whose token is one hour old, and at one
signed with a different secret, the guard terminates the process. -/
theorem verifyToken_auth_failure_exits_process :
    verifyToken none "secret" 0 = .reject401AndExitProcess ∧
    verifyToken (some (jwtSign "a@x.com" "secret" 0)) "secret" 3600 =
      .reject401AndExitProcess ∧
    verifyToken (some (jwtSign "a@x.com" "other" 0)) "secret" 10 =
      .reject401AndExitProcess := by
  refine ⟨rfl, ?_, ?_⟩ <;> decide

/-- C3: issuing a token for email a@x.com via POST /jwt and verifying it
strictly less than one hour later yields claims with that email;
verifying one hour or more after issuance yields the Expired error. -/
theorem jwt_roundtrip (secret : String) (t0 dt : Nat) :
    (dt < 3600 →
      jwtVerify (jwtSign "a@x.com" secret t0) secret (t0 + dt) =
        .ok { email := "a@x.com", iat := t0, exp := t0 + 3600 }) ∧
    (3600 ≤ dt →
      jwtVerify (jwtSign "a@x.com" secret t0) secret (t0 + dt) =
        .error .Expired) := by
  constructor
  · intro h
    simp [jwtSign, jwtVerify]
    omega
  · intro h
    simp [jwtSign, jwtVerify]
    omega

/-- C3 witness: the round-trip evaluated at secret "s", issuance time 0,
verification at 10 seconds (fresh) and at exactly 3600 seconds
(expired). -/
theorem jwt_roundtrip_witness :
    jwtVerify (jwtSign "a@x.com" "s" 0) "s" (0 + 10) =
      .ok { email := "a@x.com", iat := 0, exp := 0 + 3600 } ∧
    jwtVerify (jwtSign "a@x.com" "s" 0) "s" (0 + 3600) =
      .error .Expired :=
  ⟨(jwt_roundtrip "s" 0 10).1 (by decide),
   (jwt_roundtrip "s" 0 3600).2 (by decide)⟩

/-- Helper: updateOne with upsert applies the $set to the first
matching document and leaves the rest of the collection alone. -/
theorem updateOneUpsert_found (b : UpdateBody) (idStr : String)
    (pre post : List AssignmentDoc) (d : AssignmentDoc)
    (hd : d.oid = idStr) (hpre : ∀ x ∈ pre, x.oid ≠ idStr) :
    updateOneUpsert (pre ++ d :: post) idStr b =
      pre ++ applySet b d :: post := by
  induction pre with
  | nil => simp [updateOneUpsert, hd]
  | cons x xs ih =>
    have hx : x.oid ≠ idStr := hpre x (by simp)
    simp only [List.cons_append, updateOneUpsert, if_neg hx]
    have := ih (fun y hy => hpre y (by simp [hy]))
    simp [this]

/-- Helper: updateOne with upsert inserts the upsert document when no
document matches the id. -/
theorem updateOneUpsert_notFound (b : UpdateBody) (idStr : String)
    (store : List AssignmentDoc) (h : ∀ x ∈ store, x.oid ≠ idStr) :
    updateOneUpsert store idStr b = store ++ [upsertDoc idStr b] := by
  induction store with
  | nil => simp [updateOneUpsert]
  | cons x xs ih =>
    have hx : x.oid ≠ idStr := h x (by simp)
    simp only [updateOneUpsert, if_neg hx, List.cons_append]
    simp [ih (fun y hy => h y (by simp [hy]))]

/-- C1: the claim says a protected mutating request whose token email
differs from the query-string email gets a Forbidden response and
leaves the store unchanged.  The code does send the 403, but the
missing return lets every handler fall through to its storage call:
evaluated with token email a@x.com and query email b@x.com, all five
mutating handlers both emit the Forbidden response and mutate the
store. -/
theorem forbidden_mismatch_still_mutates_store :
    createHandler ⟨"a@x.com", 0, 3600⟩ (.str "b@x.com") exAssignment [] =
      .ok [.forbidden, .insertAck] [exAssignment] ∧
    updateHandler ⟨"a@x.com", 0, 3600⟩ (.str "b@x.com") exId exUpdateBody [] =
      .ok [.forbidden, .updateAck] [upsertDoc exId exUpdateBody] ∧
    deleteHandler ⟨"a@x.com", 0, 3600⟩ (.str "b@x.com") exId [exAssignment] =
      .ok [.forbidden, .deleteAck] [] ∧
    createSubmittedHandler ⟨"a@x.com", 0, 3600⟩ (.str "b@x.com") exSubmission [] =
      .ok [.forbidden, .insertAck] [exSubmission] ∧
    markHandler ⟨"a@x.com", 0, 3600⟩ (.str "b@x.com") exId exMarkBody [exSubmission] =
      .ok [.forbidden, .updateAck] [markSet exMarkBody exSubmission] ∧
    ([exAssignment] : List AssignmentDoc) ≠ [] ∧
    markSet exMarkBody exSubmission ≠ exSubmission := by
  refine ⟨by decide, by decide, by decide, by decide, by decide, by decide, by decide⟩

/-- C4: an update-assignment request that passes the guard performs an
upsert by the given id with a full-field $set of title, photo, marks,
difficulty, due and description: an existing document with that id has
exactly those fields replaced by the body's values (the id untouched),
and when no document has that id a new document is created under it
instead of the request failing with NotFound. -/
theorem update_upsert_full_field (user : TokenClaims) (idStr : String)
    (b : UpdateBody) (pre post : List AssignmentDoc) (d : AssignmentDoc)
    (hv : isValidObjectId idStr = true) (hd : d.oid = idStr)
    (hpre : ∀ x ∈ pre, x.oid ≠ idStr) :
    updateHandler user (.str user.email) idStr b (pre ++ d :: post) =
      .ok [.updateAck] (pre ++ applySet b d :: post) ∧
    applySet b d =
      { oid := d.oid, title := b.title, photo := b.photo,
        marks := b.marks, difficulty := b.difficulty, due := b.due,
        description := b.description } ∧
    ∀ store : List AssignmentDoc, (∀ x ∈ store, x.oid ≠ idStr) →
      updateHandler user (.str user.email) idStr b store =
        .ok [.updateAck] (store ++ [upsertDoc idStr b]) ∧
      (upsertDoc idStr b).oid = idStr := by
  refine ⟨?_, rfl, ?_⟩
  · simp [updateHandler, forbiddenCheck, hv,
      updateOneUpsert_found b idStr pre post d hd hpre]
  · intro store hstore
    refine ⟨?_, rfl⟩
    simp [updateHandler, forbiddenCheck, hv,
      updateOneUpsert_notFound b idStr store hstore]

/-- C4 witness: the upsert evaluated with a matching token and query
email, the concrete id exId, the concrete body, over a one-document
store holding that id. -/
theorem update_upsert_full_field_witness :
    updateHandler ⟨"a@x.com", 0, 3600⟩ (.str "a@x.com") exId exUpdateBody
      [exAssignment] = .ok [.updateAck] [applySet exUpdateBody exAssignment] :=
  (update_upsert_full_field ⟨"a@x.com", 0, 3600⟩ exId exUpdateBody [] []
    exAssignment (by decide) (by decide) (by simp)).1

/-- C5: the paginated listing computes find(filter) with
skip = page * size and limit = size, with page a zero-based page index:
over any 5-item collection with no filter (empty difficulty value),
page 0 and size 2 return the first two items, page 2 and size 2 return
only the fifth, and for every nonzero size at most size items are
returned (MongoDB treats limit(0) as no limit, so size 0 imposes no
cap). -/
theorem pagination_skip_page_times_size (a b c d e : AssignmentDoc) :
    assignmentsByDifficultyHandler (.str "") 0 2 [a, b, c, d, e] = [a, b] ∧
    assignmentsByDifficultyHandler (.str "") 2 2 [a, b, c, d, e] = [e] ∧
    ∀ (q : QueryVal) (page size : Nat) (store : List AssignmentDoc),
      size ≠ 0 →
      (assignmentsByDifficultyHandler q page size store).length ≤ size := by
  refine ⟨?_, ?_, ?_⟩
  · simp [assignmentsByDifficultyHandler, mongoLimit, buildFilter,
      matchesFilter, List.filter]
  · simp [assignmentsByDifficultyHandler, mongoLimit, buildFilter,
      matchesFilter, List.filter]
  · intro q page size store hsize
    simp only [assignmentsByDifficultyHandler, mongoLimit, if_neg hsize]
    exact List.length_take_le size
      ((store.filter (matchesFilter (buildFilter q))).drop (page * size))

/-- C5 witness: the nonzero-size length bound evaluated at size 2 over
a concrete 5-item collection. -/
theorem pagination_skip_page_times_size_witness :
    (assignmentsByDifficultyHandler (.str "") 1 2 [exAssignment,
      exAssignment, exAssignment, exAssignment, exAssignment]).length
      ≤ 2 :=
  (pagination_skip_page_times_size exAssignment exAssignment
    exAssignment exAssignment exAssignment).2.2 (.str "") 1 2
    [exAssignment, exAssignment, exAssignment, exAssignment,
      exAssignment] (by decide)

/-- C6 counterexample: the claim says every get-assignment-by-id
request that passes the guard returns a success or a not-found result
without throwing, but a guard-passing request whose path id is the
malformed string zzz makes the ObjectId constructor throw: the handler
ends thrown, producing neither result. -/
theorem assignmentById_throws_on_malformed_id :
    assignmentByIdHandler ⟨"a@x.com", 0, 3600⟩ (.str "a@x.com") "zzz" [] =
      .thrown [] [] ∧
    ∀ (rs : List Response) (st : List AssignmentDoc),
      assignmentByIdHandler ⟨"a@x.com", 0, 3600⟩ (.str "a@x.com") "zzz" []
        ≠ .ok rs st := by
  have h1 : assignmentByIdHandler ⟨"a@x.com", 0, 3600⟩ (.str "a@x.com")
      "zzz" [] = .thrown [] [] := by decide
  refine ⟨h1, ?_⟩
  intro rs st h
  rw [h1] at h
  exact HandlerResult.noConfusion h

/-- C6 amended: for every get-assignment-by-id request that passes the
guard and whose path id is a well-formed ObjectId string, the handler
does not throw: it returns the found assignment as a success result
when a document with that id exists, and a not-found indicator,
distinct from every success result, when none does. -/
theorem assignmentById_success_or_notFound (user : TokenClaims)
    (idStr : String) (store : List AssignmentDoc)
    (hv : isValidObjectId idStr = true) :
    (∀ a, findOneById store idStr = some a →
      assignmentByIdHandler user (.str user.email) idStr store =
        .ok [.assignmentFound a] store) ∧
    (findOneById store idStr = none →
      assignmentByIdHandler user (.str user.email) idStr store =
        .ok [.assignmentNotFound] store) ∧
    ∀ a, Response.assignmentFound a ≠ Response.assignmentNotFound := by
  refine ⟨?_, ?_, ?_⟩
  · intro a ha
    simp [assignmentByIdHandler, forbiddenCheck, hv, ha]
  · intro ha
    simp [assignmentByIdHandler, forbiddenCheck, hv, ha]
  · intro a h
    exact Response.noConfusion h

/-- C6 witness: the amended claim evaluated with a matching token and
query email, the well-formed id exId, over a store holding exactly the
document with that id. -/
theorem assignmentById_success_or_notFound_witness :
    assignmentByIdHandler ⟨"a@x.com", 0, 3600⟩ (.str "a@x.com") exId
      [exAssignment] = .ok [.assignmentFound exAssignment] [exAssignment] :=
  (assignmentById_success_or_notFound ⟨"a@x.com", 0, 3600⟩ exId
    [exAssignment] (by decide)).1 exAssignment (by decide)

/-- C7: an empty difficulty value means no filter — the empty string
builds the empty filter, under which every assignment is eligible —
and any other present value v builds the filter matching exactly the
documents whose difficulty is v. -/
theorem empty_difficulty_means_no_filter :
    buildFilter (.str "") = .empty ∧
    (∀ d, matchesFilter .empty d = true) ∧
    ∀ s : String, s ≠ "" →
      buildFilter (.str s) = .byDifficulty (.str s) ∧
      ∀ d, matchesFilter (.byDifficulty (.str s)) d =
        (d.difficulty == some s) := by
  refine ⟨by decide, fun d => rfl, ?_⟩
  intro s hs
  exact ⟨by simp [buildFilter, hs], fun d => rfl⟩

/-- C7 witness: the non-empty branch evaluated at the difficulty value
easy. -/
theorem empty_difficulty_means_no_filter_witness :
    buildFilter (.str "easy") = .byDifficulty (.str "easy") :=
  (empty_difficulty_means_no_filter.2.2 "easy" (by decide)).1

/-- C8: the my-submissions handler filters on the authenticated token's
email: whatever the query-string email, the list it sends is the one
filtered by the token email, and under a guard-passing request the
response is exactly the submissions whose submittedBy equals the
authenticated caller's email. -/
theorem myAssignments_filter_uses_token_email (user : TokenClaims)
    (q : QueryVal) (store : List SubmissionDoc) :
    (∃ pre, myAssignmentsHandler user q store =
      .ok (pre ++ [.submissionList (mySubmissions user store)]) store) ∧
    myAssignmentsHandler user (.str user.email) store =
      .ok [.submissionList (mySubmissions user store)] store ∧
    ∀ s, s ∈ mySubmissions user store ↔
      s ∈ store ∧ s.submittedBy = some user.email := by
  refine ⟨⟨forbiddenCheck user q, rfl⟩, ?_, ?_⟩
  · simp [myAssignmentsHandler, forbiddenCheck]
  · intro s
    simp [mySubmissions, List.mem_filter]

/-- C9: the no-filter branch is taken exactly when the difficulty
parameter is present and empty; an absent parameter builds the filter
on an undefined difficulty, which matches only documents without a set
difficulty field, so the route does not return the unfiltered catalog:
over a store holding one easy assignment it returns nothing. -/
theorem absent_difficulty_is_not_no_filter :
    (∀ q, buildFilter q = .empty ↔ q = .str "") ∧
    buildFilter .absent = .byDifficulty .absent ∧
    (∀ d, matchesFilter (buildFilter .absent) d =
      (d.difficulty == (none : Option String))) ∧
    assignmentsByDifficultyHandler .absent 0 10 [exAssignment] = [] := by
  refine ⟨?_, by decide, fun d => rfl, by decide⟩
  intro q
  rcases q with _ | s
  · simp [buildFilter]
  · by_cases hs : s = ""
    · subst hs
      simp [buildFilter]
    · simp [buildFilter, hs]

/-- C10: on every id-addressed protected route, a path id that is not a
well-formed 24-hex-character ObjectId makes the ObjectId constructor
throw before any store operation runs: each handler ends thrown with
its store unchanged, having emitted at most the Forbidden response and
never a success or not-found indicator. -/
theorem malformed_objectid_throws_before_store (user : TokenClaims)
    (q : QueryVal) (idStr : String) (astore : List AssignmentDoc)
    (sstore : List SubmissionDoc) (b : UpdateBody) (m : MarkBody)
    (hid : isValidObjectId idStr = false) :
    assignmentByIdHandler user q idStr astore =
      .thrown (forbiddenCheck user q) astore ∧
    updateHandler user q idStr b astore =
      .thrown (forbiddenCheck user q) astore ∧
    deleteHandler user q idStr astore =
      .thrown (forbiddenCheck user q) astore ∧
    markHandler user q idStr m sstore =
      .thrown (forbiddenCheck user q) sstore ∧
    (∀ a, Response.assignmentFound a ∉ forbiddenCheck user q) ∧
    Response.assignmentNotFound ∉ forbiddenCheck user q := by
  refine ⟨?_, ?_, ?_, ?_, ?_, ?_⟩
  · simp [assignmentByIdHandler, hid]
  · simp [updateHandler, hid]
  · simp [deleteHandler, hid]
  · simp [markHandler, hid]
  · intro a
    unfold forbiddenCheck
    split <;> simp
  · unfold forbiddenCheck
    split <;> simp

/-- C10 witness: the four handlers evaluated at the malformed id zzz9
with a guard-passing request over one-document stores. -/
theorem malformed_objectid_throws_before_store_witness :
    assignmentByIdHandler ⟨"a@x.com", 0, 3600⟩ (.str "a@x.com") "zzz9"
      [exAssignment] =
      .thrown (forbiddenCheck ⟨"a@x.com", 0, 3600⟩ (.str "a@x.com"))
        [exAssignment] ∧
    markHandler ⟨"a@x.com", 0, 3600⟩ (.str "a@x.com") "zzz9" exMarkBody
      [exSubmission] =
      .thrown (forbiddenCheck ⟨"a@x.com", 0, 3600⟩ (.str "a@x.com"))
        [exSubmission] := by
  have h := malformed_objectid_throws_before_store ⟨"a@x.com", 0, 3600⟩
    (.str "a@x.com") "zzz9" [exAssignment] [exSubmission] exUpdateBody
    exMarkBody (by decide)
  exact ⟨h.1, h.2.2.2.1⟩
